import Mathlib

/-!
Shallow embedding of the go-retry library (Go package `retry`).

Modelling conventions:
* `time.Duration` (an int64 count of nanoseconds) and `int64` counters are
  modelled as `Int`.
* `float64` back-off coefficients are modelled as `ℚ`; the Go conversion
  `time.Duration(float64(current.Nanoseconds()) * c)` truncates toward zero,
  modelled by `truncQ`.  This is exact on every computation the claims touch
  (small integral operands, for which float64 arithmetic is exact).
* A Go closure with hidden mutable state (the retried operation, the context)
  is modelled as a pure oracle indexed by the invocation number: `supply k`
  is what the k-th call of the operation returns, `done k` is what the
  context poll at the top of the k-th loop iteration observes.
* The `for` loop of `Supply` is modelled as a fuel-indexed recursion:
  `none` means the fuel ran out with the loop still running, so
  non-termination of the Go loop is `∀ fuel, result = none`.
* The sleeper is modelled by instrumentation: the result carries the list of
  durations passed to `Sleeper.Sleep`, in order, and the number of times the
  retried operation was invoked.
-/

namespace Retry

/-- Truncation of a rational toward zero: the semantics of the Go conversion
`time.Duration(f)` for a real-valued `f` in range (`int64(float64)` rounds
toward zero). -/
def truncQ (q : ℚ) : Int :=
  if q.num < 0 then -((-q.num).fdiv q.den) else q.num.fdiv q.den

/-- Source constant `defaultInitialInterval = time.Second` (in nanoseconds). -/
def defaultInitialInterval : Int := 1000000000

/-- Source constant `defaultMaxInterval = 30 * time.Second` (in nanoseconds). -/
def defaultMaxInterval : Int := 30000000000

/-- Source constant `defaultMaxAttempts = int64(3)`. -/
def defaultMaxAttempts : Int := 3

/-- Source constant `defaultBackOffCoefficient = float64(2.0)`. -/
def defaultBackOffCoefficient : ℚ := 2

/-- Source constant `fixedDelayBackOffCoefficient = float64(1.0)`. -/
def fixedDelayBackOffCoefficient : ℚ := 1

/-- Source constant `unlimitedMaxInterval = time.Duration(-1)`. -/
def unlimitedMaxInterval : Int := -1

/-- Source constant `undefinedMaxAttempts = int64(-1)`. -/
def undefinedMaxAttempts : Int := -1

/-- The internal `policy` interface: the normalized four-getter view that both
policy variants expose to the executor. -/
structure policy where
  getInitialInterval : Int
  getMaxInterval : Int
  getMaxAttempts : Int
  getBackOffCoefficient : ℚ
deriving DecidableEq

/-- `BackOffPolicy`: the exponential backoff policy struct. -/
structure BackOffPolicy where
  initialInterval : Int
  maxInterval : Int
  maxAttempts : Int
  backOffCoefficient : ℚ
deriving DecidableEq

/-- Accessor `BackOffPolicy.InitialInterval`. -/
def BackOffPolicy.InitialInterval (p : BackOffPolicy) : Int := p.initialInterval

/-- Accessor `BackOffPolicy.MaxInterval`. -/
def BackOffPolicy.MaxInterval (p : BackOffPolicy) : Int := p.maxInterval

/-- Accessor `BackOffPolicy.MaxAttempts`. -/
def BackOffPolicy.MaxAttempts (p : BackOffPolicy) : Int := p.maxAttempts

/-- Accessor `BackOffPolicy.BackOffCoefficient`. -/
def BackOffPolicy.BackOffCoefficient (p : BackOffPolicy) : ℚ := p.backOffCoefficient

/-- `BackOffPolicy.HasUnlimitedMaxInterval`. -/
def BackOffPolicy.HasUnlimitedMaxInterval (p : BackOffPolicy) : Bool :=
  p.maxInterval = unlimitedMaxInterval

/-- `BackOffPolicy.IsAttemptingIndefinitely`. -/
def BackOffPolicy.IsAttemptingIndefinitely (p : BackOffPolicy) : Bool :=
  p.maxAttempts = undefinedMaxAttempts

/-- The `policy` interface implementation of `BackOffPolicy`: the four
`get...` methods return the fields unchanged. -/
def BackOffPolicy.asPolicy (p : BackOffPolicy) : policy where
  getInitialInterval := p.initialInterval
  getMaxInterval := p.maxInterval
  getMaxAttempts := p.maxAttempts
  getBackOffCoefficient := p.backOffCoefficient

/-- `FixedDelayPolicy`: the fixed delay policy struct. -/
structure FixedDelayPolicy where
  interval : Int
  maxAttempts : Int
deriving DecidableEq

/-- Accessor `FixedDelayPolicy.Interval`. -/
def FixedDelayPolicy.Interval (p : FixedDelayPolicy) : Int := p.interval

/-- Accessor `FixedDelayPolicy.MaxAttempts`. -/
def FixedDelayPolicy.MaxAttempts (p : FixedDelayPolicy) : Int := p.maxAttempts

/-- `FixedDelayPolicy.IsAttemptingIndefinitely`. -/
def FixedDelayPolicy.IsAttemptingIndefinitely (p : FixedDelayPolicy) : Bool :=
  p.maxAttempts = undefinedMaxAttempts

/-- The `policy` interface implementation of `FixedDelayPolicy`: initial and
max interval are both `interval`, the coefficient is the fixed-delay constant
1.0. -/
def FixedDelayPolicy.asPolicy (p : FixedDelayPolicy) : policy where
  getInitialInterval := p.interval
  getMaxInterval := p.interval
  getMaxAttempts := p.maxAttempts
  getBackOffCoefficient := fixedDelayBackOffCoefficient

/-- Source function `nextInterval`:
`time.Duration(float64(current.Nanoseconds()) * backOffCoefficient)`. -/
def nextInterval (current : Int) (backOffCoefficient : ℚ) : Int :=
  truncQ ((current : ℚ) * backOffCoefficient)

/-- Source function `calcNextInterval`. -/
def calcNextInterval (current maxInterval : Int) (backOffCoefficient : ℚ) : Int :=
  if unlimitedMaxInterval = maxInterval then
    nextInterval current backOffCoefficient
  else if current = maxInterval then
    current
  else
    let next := nextInterval current backOffCoefficient
    if next > maxInterval then maxInterval else next

/-- A Go `error` value produced by the executor: either an operation error
passed through unchanged, or a `DeadlineExceededError` wrapping the last
observed result and the last observed operation error. -/
inductive RetryError (T E : Type) where
  | op (e : E)
  | deadlineExceeded (Result : T) (Err : Option E)
deriving DecidableEq

/-- The loop of source function `Supply`, fuel-indexed.  The loop state is:
the current result `res` (`var res T`, starting at the zero value), the last
operation error `err`, the `nextInterval` local variable `nextI`, the loop
counter `i`, and the iteration index `k` (which call of the context poll and
of the operation this iteration performs).  The value is the Go return pair
`(res, error)` together with the list of durations passed to the sleeper and
the number of invocations of the operation; `none` means the fuel was
exhausted with the loop still running. -/
def supplyGo {T E : Type} (p : policy) (done : Nat → Bool)
    (supply : Nat → T × Option E) :
    Nat → T → Option E → Int → Int → Nat →
    Option ((T × Option (RetryError T E)) × List Int × Nat)
  | 0, _, _, _, _, _ => none
  | fuel + 1, res, err, nextI, i, k =>
    if i = 0 ∨ i < p.getMaxAttempts then
      if done k then
        some ((res, some (RetryError.deadlineExceeded res err)), [], 0)
      else
        match supply k with
        | (res2, none) => some ((res2, none), [], 1)
        | (res2, some e) =>
          Option.map (fun r => (r.1, nextI :: r.2.1, r.2.2 + 1))
            (supplyGo p done supply fuel res2 (some e)
              (calcNextInterval nextI p.getMaxInterval p.getBackOffCoefficient)
              (if p.getMaxAttempts > 0 then i + 1 else i) (k + 1))
    else
      some ((res, Option.map RetryError.op err), [], 0)

/-- Source function `Supply`: runs the loop from the initial state
(`res` the zero value `t0`, `err` nil, `nextInterval` the policy initial
interval, `i = 0`). -/
def Supply {T E : Type} (p : policy) (done : Nat → Bool)
    (supply : Nat → T × Option E) (fuel : Nat) (t0 : T) :
    Option ((T × Option (RetryError T E)) × List Int × Nat) :=
  supplyGo p done supply fuel t0 none p.getInitialInterval 0 0

/-- Source function `runFuncToSupplyFunc`: lifts an error-only operation to a
supply operation returning the placeholder `nil` (modelled as `Unit`). -/
def runFuncToSupplyFunc {E : Type} (run : Nat → Option E) :
    Nat → Unit × Option E :=
  fun k => ((), run k)

/-- Source function `returnErrOnly`: drops the value, keeps the error. -/
def returnErrOnly {T E : Type} (r : T × Option (RetryError T E)) :
    Option (RetryError T E) :=
  r.2

/-- Source function `Run`: delegates to `Supply` through
`runFuncToSupplyFunc` and keeps only the error component. -/
def Run {E : Type} (p : policy) (done : Nat → Bool) (run : Nat → Option E)
    (fuel : Nat) : Option (Option (RetryError Unit E)) :=
  Option.map (fun r => returnErrOnly r.1)
    (Supply p done (runFuncToSupplyFunc run) fuel ())

/-- `BackOffPolicyBuilder` struct (Go zero value: all fields zero). -/
structure BackOffPolicyBuilder where
  initialInterval : Int
  maxInterval : Int
  maxAttempts : Int
  backOffCoefficient : ℚ
deriving DecidableEq

/-- `FixedDelayPolicyBuilder` struct (Go zero value: all fields zero). -/
structure FixedDelayPolicyBuilder where
  interval : Int
  maxAttempts : Int
deriving DecidableEq

/-- The entry `Builder` struct. -/
structure Builder where

/-- Source function `Policy()`: returns the entry builder. -/
def Policy : Builder := {}

/-- `Builder.BackOff()`: the zero-valued backoff builder. -/
def Builder.BackOff (_ : Builder) : BackOffPolicyBuilder :=
  ⟨0, 0, 0, 0⟩

/-- `Builder.FixedDelay()`: the zero-valued fixed delay builder. -/
def Builder.FixedDelay (_ : Builder) : FixedDelayPolicyBuilder :=
  ⟨0, 0⟩

/-- `BackOffPolicyBuilder.WithInitialInterval`. -/
def BackOffPolicyBuilder.WithInitialInterval (b : BackOffPolicyBuilder)
    (initialInterval : Int) : BackOffPolicyBuilder where
  initialInterval := initialInterval
  maxInterval := b.maxInterval
  maxAttempts := b.maxAttempts
  backOffCoefficient := b.backOffCoefficient

/-- `BackOffPolicyBuilder.WithMaxInterval`. -/
def BackOffPolicyBuilder.WithMaxInterval (b : BackOffPolicyBuilder)
    (maxInterval : Int) : BackOffPolicyBuilder where
  initialInterval := b.initialInterval
  maxInterval := maxInterval
  maxAttempts := b.maxAttempts
  backOffCoefficient := b.backOffCoefficient

/-- `BackOffPolicyBuilder.WithMaxIntervalUnlimited`. -/
def BackOffPolicyBuilder.WithMaxIntervalUnlimited (b : BackOffPolicyBuilder) :
    BackOffPolicyBuilder where
  initialInterval := b.initialInterval
  maxInterval := unlimitedMaxInterval
  maxAttempts := b.maxAttempts
  backOffCoefficient := b.backOffCoefficient

/-- `BackOffPolicyBuilder.WithMaxAttempts`. -/
def BackOffPolicyBuilder.WithMaxAttempts (b : BackOffPolicyBuilder)
    (maxAttempts : Int) : BackOffPolicyBuilder where
  initialInterval := b.initialInterval
  maxInterval := b.maxInterval
  maxAttempts := maxAttempts
  backOffCoefficient := b.backOffCoefficient

/-- `BackOffPolicyBuilder.WithMaxAttemptsIndefinite`. -/
def BackOffPolicyBuilder.WithMaxAttemptsIndefinite (b : BackOffPolicyBuilder) :
    BackOffPolicyBuilder where
  initialInterval := b.initialInterval
  maxInterval := b.maxInterval
  maxAttempts := undefinedMaxAttempts
  backOffCoefficient := b.backOffCoefficient

/-- `BackOffPolicyBuilder.WithBackOffCoefficient`. -/
def BackOffPolicyBuilder.WithBackOffCoefficient (b : BackOffPolicyBuilder)
    (backOffCoefficient : ℚ) : BackOffPolicyBuilder where
  initialInterval := b.initialInterval
  maxInterval := b.maxInterval
  maxAttempts := b.maxAttempts
  backOffCoefficient := backOffCoefficient

/-- `BackOffPolicyBuilder.resolveInitialInterval`. -/
def BackOffPolicyBuilder.resolveInitialInterval (b : BackOffPolicyBuilder) : Int :=
  if b.initialInterval ≤ 0 then defaultInitialInterval else b.initialInterval

/-- `BackOffPolicyBuilder.resolveMaxInterval`. -/
def BackOffPolicyBuilder.resolveMaxInterval (b : BackOffPolicyBuilder) : Int :=
  if b.maxInterval < 0 then unlimitedMaxInterval
  else if b.maxInterval = 0 then defaultMaxInterval
  else b.maxInterval

/-- `BackOffPolicyBuilder.resolveMaxAttempts`. -/
def BackOffPolicyBuilder.resolveMaxAttempts (b : BackOffPolicyBuilder) : Int :=
  if b.maxAttempts < 0 then undefinedMaxAttempts
  else if b.maxAttempts = 0 then defaultMaxAttempts
  else b.maxAttempts

/-- `BackOffPolicyBuilder.resolveBackOffCoefficient`. -/
def BackOffPolicyBuilder.resolveBackOffCoefficient (b : BackOffPolicyBuilder) : ℚ :=
  if b.backOffCoefficient ≤ 0 then defaultBackOffCoefficient
  else b.backOffCoefficient

/-- `BackOffPolicyBuilder.Build`. -/
def BackOffPolicyBuilder.Build (b : BackOffPolicyBuilder) : BackOffPolicy where
  initialInterval := b.resolveInitialInterval
  maxInterval := b.resolveMaxInterval
  maxAttempts := b.resolveMaxAttempts
  backOffCoefficient := b.resolveBackOffCoefficient

/-- `FixedDelayPolicyBuilder.WithInterval`. -/
def FixedDelayPolicyBuilder.WithInterval (b : FixedDelayPolicyBuilder)
    (interval : Int) : FixedDelayPolicyBuilder where
  interval := interval
  maxAttempts := b.maxAttempts

/-- `FixedDelayPolicyBuilder.WithMaxAttempts`. -/
def FixedDelayPolicyBuilder.WithMaxAttempts (b : FixedDelayPolicyBuilder)
    (maxAttempts : Int) : FixedDelayPolicyBuilder where
  interval := b.interval
  maxAttempts := maxAttempts

/-- `FixedDelayPolicyBuilder.WithMaxAttemptsIndefinite`. -/
def FixedDelayPolicyBuilder.WithMaxAttemptsIndefinite
    (b : FixedDelayPolicyBuilder) : FixedDelayPolicyBuilder where
  interval := b.interval
  maxAttempts := undefinedMaxAttempts

/-- `FixedDelayPolicyBuilder.resolveInterval`. -/
def FixedDelayPolicyBuilder.resolveInterval (b : FixedDelayPolicyBuilder) : Int :=
  if b.interval ≤ 0 then defaultInitialInterval else b.interval

/-- `FixedDelayPolicyBuilder.resolveMaxAttempts`. -/
def FixedDelayPolicyBuilder.resolveMaxAttempts (b : FixedDelayPolicyBuilder) : Int :=
  if b.maxAttempts < 0 then undefinedMaxAttempts
  else if b.maxAttempts = 0 then defaultMaxAttempts
  else b.maxAttempts

/-- `FixedDelayPolicyBuilder.Build`. -/
def FixedDelayPolicyBuilder.Build (b : FixedDelayPolicyBuilder) : FixedDelayPolicy where
  interval := b.resolveInterval
  maxAttempts := b.resolveMaxAttempts

/-- The backoff policy of the exponential-progression scenario:
initial interval 100ms, coefficient 2.0, maxAttempts 5 (maxInterval left at
its default). -/
def backOff100ms5 : policy :=
  ((((Policy.BackOff).WithInitialInterval 100000000).WithBackOffCoefficient
    2).WithMaxAttempts 5).Build.asPolicy

/-- The backoff policy of the max-interval-clamp scenario: initial interval
100ms, max interval 100ms, coefficient 2.0. -/
def backOffCapped100ms : policy :=
  ((((Policy.BackOff).WithInitialInterval 100000000).WithMaxInterval
    100000000).WithBackOffCoefficient 2).Build.asPolicy

/-- One-step unfolding of the loop: live iteration, cancellation observed. -/
theorem supplyGo_succ_deadline {T E : Type} (p : policy) (done : Nat → Bool)
    (supply : Nat → T × Option E) (fuel : Nat) (res : T) (err : Option E)
    (nextI i : Int) (k : Nat) (hcond : i = 0 ∨ i < p.getMaxAttempts)
    (hdone : done k = true) :
    supplyGo p done supply (fuel + 1) res err nextI i k =
      some ((res, some (RetryError.deadlineExceeded res err)), [], 0) := by
  rw [supplyGo, if_pos hcond, if_pos hdone]

/-- One-step unfolding of the loop: loop condition false, exhausted return. -/
theorem supplyGo_succ_exhaust {T E : Type} (p : policy) (done : Nat → Bool)
    (supply : Nat → T × Option E) (fuel : Nat) (res : T) (err : Option E)
    (nextI i : Int) (k : Nat) (hcond : ¬(i = 0 ∨ i < p.getMaxAttempts)) :
    supplyGo p done supply (fuel + 1) res err nextI i k =
      some ((res, Option.map RetryError.op err), [], 0) := by
  rw [supplyGo, if_neg hcond]

/-- One-step unfolding of the loop: live iteration, operation succeeds. -/
theorem supplyGo_succ_success {T E : Type} (p : policy) (done : Nat → Bool)
    (supply : Nat → T × Option E) (fuel : Nat) (res : T) (err : Option E)
    (nextI i : Int) (k : Nat) (res2 : T)
    (hcond : i = 0 ∨ i < p.getMaxAttempts) (hdone : done k = false)
    (hsk : supply k = (res2, none)) :
    supplyGo p done supply (fuel + 1) res err nextI i k =
      some ((res2, none), [], 1) := by
  rw [supplyGo, if_pos hcond, if_neg (by simp [hdone]), hsk]

/-- One-step unfolding of the loop: live iteration, operation fails, sleep
for the current interval and continue. -/
theorem supplyGo_succ_fail {T E : Type} (p : policy) (done : Nat → Bool)
    (supply : Nat → T × Option E) (fuel : Nat) (res : T) (err : Option E)
    (nextI i : Int) (k : Nat) (res2 : T) (e : E)
    (hcond : i = 0 ∨ i < p.getMaxAttempts) (hdone : done k = false)
    (hsk : supply k = (res2, some e)) :
    supplyGo p done supply (fuel + 1) res err nextI i k =
      Option.map (fun r => (r.1, nextI :: r.2.1, r.2.2 + 1))
        (supplyGo p done supply fuel res2 (some e)
          (calcNextInterval nextI p.getMaxInterval p.getBackOffCoefficient)
          (if p.getMaxAttempts > 0 then i + 1 else i) (k + 1)) := by
  rw [supplyGo, if_pos hcond, if_neg (by simp [hdone]), hsk]

/-- `calcNextInterval` never exceeds a non-unlimited max interval. -/
theorem calcNextInterval_le (current maxI : Int) (c : ℚ)
    (h : ¬ unlimitedMaxInterval = maxI) :
    calcNextInterval current maxI c ≤ maxI := by
  show (if unlimitedMaxInterval = maxI then nextInterval current c
        else if current = maxI then current
        else if nextInterval current c > maxI then maxI
        else nextInterval current c) ≤ maxI
  rw [if_neg h]
  split_ifs <;> omega

/-- Loop invariant: when the max interval is not the unlimited sentinel and
the pending interval is below it, every duration passed to the sleeper stays
at or below the max interval. -/
theorem supplyGo_sleeps_le {T E : Type} (p : policy) (done : Nat → Bool)
    (supply : Nat → T × Option E)
    (hmax : ¬ unlimitedMaxInterval = p.getMaxInterval) :
    ∀ (fuel : Nat) (res : T) (err : Option E) (nextI i : Int) (k : Nat)
      (out : T × Option (RetryError T E)) (sleeps : List Int) (calls : Nat),
      nextI ≤ p.getMaxInterval →
      supplyGo p done supply fuel res err nextI i k = some (out, sleeps, calls) →
      ∀ s ∈ sleeps, s ≤ p.getMaxInterval := by
  intro fuel
  induction fuel with
  | zero =>
    intro res err nextI i k out sleeps calls _ h
    exact Option.noConfusion h
  | succ f ih =>
    intro res err nextI i k out sleeps calls hle h
    by_cases hcond : i = 0 ∨ i < p.getMaxAttempts
    · by_cases hdk : done k = true
      · rw [supplyGo_succ_deadline p done supply f res err nextI i k hcond hdk] at h
        simp only [Option.some.injEq, Prod.mk.injEq] at h
        obtain ⟨-, h2, -⟩ := h
        subst h2
        simp
      · rw [Bool.not_eq_true] at hdk
        rcases hsk : supply k with ⟨res2, e2⟩
        cases e2 with
        | none =>
          rw [supplyGo_succ_success p done supply f res err nextI i k res2
            hcond hdk hsk] at h
          simp only [Option.some.injEq, Prod.mk.injEq] at h
          obtain ⟨-, h2, -⟩ := h
          subst h2
          simp
        | some e =>
          rw [supplyGo_succ_fail p done supply f res err nextI i k res2 e
            hcond hdk hsk] at h
          rw [Option.map_eq_some'] at h
          obtain ⟨⟨out2, sleeps2, calls2⟩, hrec, heq⟩ := h
          simp only [Prod.mk.injEq] at heq
          obtain ⟨-, h2, -⟩ := heq
          subst h2
          intro s hs
          rcases List.mem_cons.mp hs with rfl | hs2
          · exact hle
          · exact ih res2 (some e)
              (calcNextInterval nextI p.getMaxInterval p.getBackOffCoefficient)
              (if p.getMaxAttempts > 0 then i + 1 else i) (k + 1)
              out2 sleeps2 calls2
              (calcNextInterval_le nextI p.getMaxInterval p.getBackOffCoefficient hmax)
              hrec s hs2
    · rw [supplyGo_succ_exhaust p done supply f res err nextI i k hcond] at h
      simp only [Option.some.injEq, Prod.mk.injEq] at h
      obtain ⟨-, h2, -⟩ := h
      subst h2
      simp

/-- Always-failing operation, never-fired cancellation, positive bounded
maxAttempts: from the state m iterations before exhaustion the loop performs
exactly m more operation calls and m more sleeps, then returns the value and
error of the last call, the error unwrapped. -/
theorem supplyGo_exhaust {T E : Type} (p : policy) (supply : Nat → T × Option E)
    (hfail : ∀ k, (supply k).2 ≠ none) (hn : 0 < p.getMaxAttempts) :
    ∀ (m fuel : Nat) (i : Int) (k : Nat) (res : T) (err : Option E) (nextI : Int),
      i = p.getMaxAttempts - m → m < fuel →
      ∃ sleeps : List Int, sleeps.length = m ∧
        supplyGo p (fun _ => false) supply fuel res err nextI i k =
          some (((if m = 0 then res else (supply (k + m - 1)).1),
                 Option.map RetryError.op
                   (if m = 0 then err else (supply (k + m - 1)).2)),
                sleeps, m) := by
  intro m
  induction m with
  | zero =>
    intro fuel i k res err nextI hi hfuel
    obtain ⟨f, rfl⟩ : ∃ f, fuel = f + 1 := ⟨fuel - 1, by omega⟩
    refine ⟨[], rfl, ?_⟩
    rw [supplyGo_succ_exhaust p _ supply f res err nextI i k (by omega)]
    rfl
  | succ m ih =>
    intro fuel i k res err nextI hi hfuel
    obtain ⟨f, rfl⟩ : ∃ f, fuel = f + 1 := ⟨fuel - 1, by omega⟩
    rcases hsk : supply k with ⟨res2, e2⟩
    cases e2 with
    | none => exact absurd (by rw [hsk]) (hfail k)
    | some e =>
      obtain ⟨sleeps, hlen, hrec⟩ := ih f (i + 1) (k + 1) res2 (some e)
        (calcNextInterval nextI p.getMaxInterval p.getBackOffCoefficient)
        (by omega) (by omega)
      have hv : (if m = 0 then res2 else (supply (k + 1 + m - 1)).1) =
          (supply (k + m)).1 := by
        cases m with
        | zero => simp [hsk]
        | succ m2 =>
          rw [if_neg (Nat.succ_ne_zero m2),
            show k + 1 + (m2 + 1) - 1 = k + (m2 + 1) from by omega]
      have he : (if m = 0 then (some e : Option E) else (supply (k + 1 + m - 1)).2) =
          (supply (k + m)).2 := by
        cases m with
        | zero => simp [hsk]
        | succ m2 =>
          rw [if_neg (Nat.succ_ne_zero m2),
            show k + 1 + (m2 + 1) - 1 = k + (m2 + 1) from by omega]
      rw [hv, he] at hrec
      refine ⟨nextI :: sleeps, by simp [hlen], ?_⟩
      rw [supplyGo_succ_fail p _ supply f res err nextI i k res2 e
        (Or.inr (by omega)) rfl hsk]
      rw [if_pos (by omega : p.getMaxAttempts > 0), hrec]
      rw [show k + (m + 1) - 1 = k + m from by omega]
      rfl

/-- Cancellation observed at the top of iteration j, the operation failing
at the j earlier iterations: the loop makes exactly j operation calls and
returns the deadline-exceeded error wrapping the last observed value and
error (the incoming state when j = 0). -/
theorem supplyGo_deadline {T E : Type} (p : policy) (done : Nat → Bool)
    (supply : Nat → T × Option E) :
    ∀ (j fuel : Nat) (i : Int) (k : Nat) (res : T) (err : Option E) (nextI : Int),
      (∀ m, m < j → done (k + m) = false) →
      done (k + j) = true →
      (∀ m, m < j → (supply (k + m)).2 ≠ none) →
      (p.getMaxAttempts ≤ 0 ∧ i = 0 ∨
        0 < p.getMaxAttempts ∧ 0 ≤ i ∧
          ((i + j < p.getMaxAttempts) ∨ i + (j : Int) = 0)) →
      j < fuel →
      ∃ sleeps : List Int,
        supplyGo p done supply fuel res err nextI i k =
          some (((if j = 0 then res else (supply (k + j - 1)).1),
                 some (RetryError.deadlineExceeded
                   (if j = 0 then res else (supply (k + j - 1)).1)
                   (if j = 0 then err else (supply (k + j - 1)).2))),
                sleeps, j) := by
  intro j
  induction j with
  | zero =>
    intro fuel i k res err nextI hb hd hf halive hfuel
    obtain ⟨f, rfl⟩ : ∃ f, fuel = f + 1 := ⟨fuel - 1, by omega⟩
    refine ⟨[], ?_⟩
    rw [supplyGo_succ_deadline p done supply f res err nextI i k (by omega)
      (by simpa using hd)]
    rfl
  | succ j ih =>
    intro fuel i k res err nextI hb hd hf halive hfuel
    obtain ⟨f, rfl⟩ : ∃ f, fuel = f + 1 := ⟨fuel - 1, by omega⟩
    rcases hsk : supply k with ⟨res2, e2⟩
    cases e2 with
    | none =>
      refine absurd ?_ (hf 0 (by omega))
      rw [show k + 0 = k from rfl, hsk]
    | some e =>
      have hb0 : done k = false := by simpa using hb 0 (by omega)
      have hb2 : ∀ m, m < j → done (k + 1 + m) = false := by
        intro m hm
        rw [show k + 1 + m = k + (m + 1) from by omega]
        exact hb (m + 1) (by omega)
      have hd2 : done (k + 1 + j) = true := by
        rw [show k + 1 + j = k + (j + 1) from by omega]
        exact hd
      have hf2 : ∀ m, m < j → (supply (k + 1 + m)).2 ≠ none := by
        intro m hm
        rw [show k + 1 + m = k + (m + 1) from by omega]
        exact hf (m + 1) (by omega)
      obtain ⟨sleeps, hrec⟩ := ih f (if p.getMaxAttempts > 0 then i + 1 else i)
        (k + 1) res2 (some e)
        (calcNextInterval nextI p.getMaxInterval p.getBackOffCoefficient)
        hb2 hd2 hf2 (by split_ifs <;> omega) (by omega)
      have hv : (if j = 0 then res2 else (supply (k + 1 + j - 1)).1) =
          (supply (k + j)).1 := by
        cases j with
        | zero => simp [hsk]
        | succ j2 =>
          rw [if_neg (Nat.succ_ne_zero j2),
            show k + 1 + (j2 + 1) - 1 = k + (j2 + 1) from by omega]
      have he : (if j = 0 then (some e : Option E) else (supply (k + 1 + j - 1)).2) =
          (supply (k + j)).2 := by
        cases j with
        | zero => simp [hsk]
        | succ j2 =>
          rw [if_neg (Nat.succ_ne_zero j2),
            show k + 1 + (j2 + 1) - 1 = k + (j2 + 1) from by omega]
      rw [hv, he] at hrec
      refine ⟨nextI :: sleeps, ?_⟩
      rw [supplyGo_succ_fail p done supply f res err nextI i k res2 e
        (by omega) hb0 hsk]
      rw [hrec]
      rw [show k + (j + 1) - 1 = k + j from by omega]
      rfl

/-- The loop never increments its counter when maxAttempts is zero, so it
never terminates on a policy whose maxAttempts getter returns 0. -/
theorem supplyGo_maxAttempts_zero {T E : Type} (p : policy)
    (supply : Nat → T × Option E) (hfail : ∀ k, (supply k).2 ≠ none)
    (hp : p.getMaxAttempts = 0) :
    ∀ (fuel k : Nat) (res : T) (err : Option E) (nextI : Int),
      supplyGo p (fun _ => false) supply fuel res err nextI 0 k = none := by
  intro fuel
  induction fuel with
  | zero =>
    intro k res err nextI
    rfl
  | succ f ih =>
    intro k res err nextI
    rcases hsk : supply k with ⟨res2, e2⟩
    cases e2 with
    | none => exact absurd (by rw [hsk]) (hfail k)
    | some e =>
      rw [supplyGo_succ_fail p _ supply f res err nextI 0 k res2 e
        (Or.inl rfl) rfl hsk]
      rw [if_neg (by omega : ¬ p.getMaxAttempts > 0)]
      rw [ih (k + 1) res2 (some e)
        (calcNextInterval nextI p.getMaxInterval p.getBackOffCoefficient)]
      rfl

/-- C3: for every current interval, maxInterval and coefficient,
`calcNextInterval` returns the uncapped product when maxInterval is the
unlimited sentinel; returns maxInterval when current equals maxInterval; and
otherwise returns the product clamped down to maxInterval exactly when the
product exceeds maxInterval (`nextInterval` is the source computation
`current * coefficient`, truncated to a duration). -/
theorem claim3_calcNextInterval_cap (current maxI : Int) (c : ℚ) :
    calcNextInterval current maxI c =
      if maxI = unlimitedMaxInterval then nextInterval current c
      else if current = maxI then maxI
      else min (nextInterval current c) maxI := by
  show (if unlimitedMaxInterval = maxI then nextInterval current c
        else if current = maxI then current
        else if nextInterval current c > maxI then maxI
        else nextInterval current c) = _
  split_ifs <;> omega

unseal Rat.mul in
/-- C4: the built backoff policy with initialInterval 100ms, coefficient 2.0,
maxAttempts 5 (maxInterval at its default 30s), run against an operation that
fails on attempts 1 through 4 and succeeds on attempt 5, sleeps exactly
100ms, 200ms, 400ms, 800ms between consecutive attempts, so the attempt
start offsets (the partial sums) are 0, 100ms, 300ms, 700ms, 1500ms. -/
theorem claim4_exponential_progression :
    Supply backOff100ms5 (fun _ => false)
        (fun k => (k + 1, if k < 4 then (some 0 : Option Nat) else none)) 6 0 =
      some ((5, none), [100000000, 200000000, 400000000, 800000000], 5) ∧
    List.scanl (fun a b => a + b) (0 : Int)
        [100000000, 200000000, 400000000, 800000000] =
      [0, 100000000, 300000000, 700000000, 1500000000] := by
  constructor
  · decide
  · decide

/-- C5: for every builder input, Build is total and normalizes exactly as
specified: maxAttempts 0 to 3, negative maxAttempts to the indefinite
sentinel -1, maxInterval 0 to 30s, negative maxInterval to the unlimited
sentinel -1, non-positive initialInterval to 1s, non-positive coefficient to
2.0, a FixedDelay policy always has coefficient 1.0 and non-positive interval
maps to 1s, positive inputs are kept; and the built fields are positive
except the two sentinels. -/
theorem claim5_build_normalization (b : BackOffPolicyBuilder)
    (f : FixedDelayPolicyBuilder) :
    (b.Build.initialInterval =
      if b.initialInterval ≤ 0 then 1000000000 else b.initialInterval) ∧
    (b.Build.maxInterval =
      if b.maxInterval < 0 then -1
      else if b.maxInterval = 0 then 30000000000 else b.maxInterval) ∧
    (b.Build.maxAttempts =
      if b.maxAttempts < 0 then -1
      else if b.maxAttempts = 0 then 3 else b.maxAttempts) ∧
    (b.Build.backOffCoefficient =
      if b.backOffCoefficient ≤ 0 then 2 else b.backOffCoefficient) ∧
    (f.Build.interval = if f.interval ≤ 0 then 1000000000 else f.interval) ∧
    (f.Build.maxAttempts =
      if f.maxAttempts < 0 then -1
      else if f.maxAttempts = 0 then 3 else f.maxAttempts) ∧
    f.Build.asPolicy.getBackOffCoefficient = 1 ∧
    0 < b.Build.initialInterval ∧
    (b.Build.maxInterval = -1 ∨ 0 < b.Build.maxInterval) ∧
    (b.Build.maxAttempts = -1 ∨ 0 < b.Build.maxAttempts) ∧
    0 < b.Build.backOffCoefficient ∧
    0 < f.Build.interval ∧
    (f.Build.maxAttempts = -1 ∨ 0 < f.Build.maxAttempts) := by
  refine ⟨rfl, rfl, rfl, rfl, rfl, rfl, rfl, ?_, ?_, ?_, ?_, ?_, ?_⟩
  · show (0 : Int) <
      (if b.initialInterval ≤ 0 then defaultInitialInterval else b.initialInterval)
    unfold defaultInitialInterval
    split_ifs <;> omega
  · show (if b.maxInterval < 0 then unlimitedMaxInterval
      else if b.maxInterval = 0 then defaultMaxInterval else b.maxInterval) = -1 ∨
      (0 : Int) < (if b.maxInterval < 0 then unlimitedMaxInterval
      else if b.maxInterval = 0 then defaultMaxInterval else b.maxInterval)
    unfold unlimitedMaxInterval defaultMaxInterval
    split_ifs <;> omega
  · show (if b.maxAttempts < 0 then undefinedMaxAttempts
      else if b.maxAttempts = 0 then defaultMaxAttempts else b.maxAttempts) = -1 ∨
      (0 : Int) < (if b.maxAttempts < 0 then undefinedMaxAttempts
      else if b.maxAttempts = 0 then defaultMaxAttempts else b.maxAttempts)
    unfold undefinedMaxAttempts defaultMaxAttempts
    split_ifs <;> omega
  · show (0 : ℚ) <
      (if b.backOffCoefficient ≤ 0 then defaultBackOffCoefficient
       else b.backOffCoefficient)
    unfold defaultBackOffCoefficient
    split_ifs with h
    · norm_num
    · rw [not_le] at h
      exact h
  · show (0 : Int) < (if f.interval ≤ 0 then defaultInitialInterval else f.interval)
    unfold defaultInitialInterval
    split_ifs <;> omega
  · show (if f.maxAttempts < 0 then undefinedMaxAttempts
      else if f.maxAttempts = 0 then defaultMaxAttempts else f.maxAttempts) = -1 ∨
      (0 : Int) < (if f.maxAttempts < 0 then undefinedMaxAttempts
      else if f.maxAttempts = 0 then defaultMaxAttempts else f.maxAttempts)
    unfold undefinedMaxAttempts defaultMaxAttempts
    split_ifs <;> omega

/-- C7: Run equals the error component of Supply applied to the same
context, sleeper and policy with the operation lifted to return the
placeholder value alongside its error; in particular whenever the lifted
Supply succeeds (error component none), Run returns none, discarding the
placeholder value. -/
theorem claim7_run_delegates {E : Type} (p : policy) (done : Nat → Bool)
    (run : Nat → Option E) (fuel : Nat) :
    Run p done run fuel =
      Option.map (fun r => r.1.2)
        (Supply p done (fun k => ((), run k)) fuel ()) ∧
    (∀ (v : Unit) (s : List Int) (c : Nat),
      Supply p done (fun k => ((), run k)) fuel () = some ((v, none), s, c) →
      Run p done run fuel = some none) := by
  constructor
  · rfl
  · intro v s c h
    unfold Run runFuncToSupplyFunc returnErrOnly
    rw [h]
    rfl

/-- Witness for C7 at a concrete policy and an operation succeeding at once. -/
theorem claim7_witness :
    Run backOff100ms5 (fun _ => false) (fun _ => (none : Option Nat)) 1 =
      some none :=
  (claim7_run_delegates backOff100ms5 (fun _ => false)
    (fun _ => (none : Option Nat)) 1).2 () [] 1 (by decide)

/-- C8: building twice from the same builder state yields identical policies,
and every With operation is exactly a functional field update: the produced
builder keeps every other field of the receiver.  Since the Go methods take
the receiver by value and only construct fresh structs, no With call can
affect an independently held builder reference; the embedding is therefore
pure and the content verified here is that each With copies exactly the
untouched receiver fields. -/
theorem claim8_builder_value_semantics (b : BackOffPolicyBuilder)
    (f : FixedDelayPolicyBuilder) (d n : Int) (c : ℚ) :
    b.Build = b.Build ∧ f.Build = f.Build ∧
    b.WithInitialInterval d = { b with initialInterval := d } ∧
    b.WithMaxInterval d = { b with maxInterval := d } ∧
    b.WithMaxIntervalUnlimited = { b with maxInterval := unlimitedMaxInterval } ∧
    b.WithMaxAttempts n = { b with maxAttempts := n } ∧
    b.WithMaxAttemptsIndefinite = { b with maxAttempts := undefinedMaxAttempts } ∧
    b.WithBackOffCoefficient c = { b with backOffCoefficient := c } ∧
    f.WithInterval d = { f with interval := d } ∧
    f.WithMaxAttempts n = { f with maxAttempts := n } ∧
    f.WithMaxAttemptsIndefinite = { f with maxAttempts := undefinedMaxAttempts } :=
  ⟨rfl, rfl, rfl, rfl, rfl, rfl, rfl, rfl, rfl, rfl, rfl⟩

/-- C1: for every policy with bounded maxAttempts n at least 1 and an
operation failing with error e on every invocation (values arbitrary per
attempt), with the cancellation signal never firing, Supply invokes the
operation exactly n times and returns the value of the last attempt together
with the operation error itself, not wrapped in any other error kind. -/
theorem claim1_exhausted_plain_error {T E : Type} (p : policy)
    (hn : 1 ≤ p.getMaxAttempts) (vals : Nat → T) (e : E) (t0 : T) (fuel : Nat)
    (hfuel : p.getMaxAttempts.toNat < fuel) :
    ∃ sleeps : List Int,
      Supply p (fun _ => false) (fun k => (vals k, some e)) fuel t0 =
        some ((vals (p.getMaxAttempts.toNat - 1), some (RetryError.op e)),
              sleeps, p.getMaxAttempts.toNat) := by
  obtain ⟨sleeps, -, h⟩ := supplyGo_exhaust p (fun k => (vals k, some e))
    (fun k => by simp) (by omega) p.getMaxAttempts.toNat fuel 0 0 t0 none
    p.getInitialInterval (by omega) hfuel
  have hm0 : ¬(p.getMaxAttempts.toNat = 0) := by omega
  rw [if_neg hm0, if_neg hm0] at h
  simp only [Nat.zero_add] at h
  exact ⟨sleeps, h⟩

/-- Witness for C1: bounded maxAttempts 5, operation always failing with
error 7, values 0,1,2,...: five invocations, last value 4, plain error. -/
theorem claim1_witness :
    ∃ sleeps : List Int,
      Supply backOff100ms5 (fun _ => false)
          (fun k => ((k : Nat), (some 7 : Option Nat))) 6 0 =
        some ((4, some (RetryError.op 7)), sleeps, 5) :=
  claim1_exhausted_plain_error backOff100ms5 (by decide) (fun k => k) 7 0 6
    (by decide)

/-- C2: the cancellation signal is checked at the top of each iteration
before the operation is invoked: if the signal is observed at check j (after
j failed attempts, the signal unobserved before), Supply stops with exactly
j operation invocations and returns a deadline-exceeded error carrying the
last observed value and error; for j = 0 these are the zero value and none. -/
theorem claim2_cancellation_checked_first {T E : Type} (p : policy)
    (done : Nat → Bool) (supply : Nat → T × Option E) (j fuel : Nat) (t0 : T)
    (hbefore : ∀ m, m < j → done m = false) (hsig : done j = true)
    (hfails : ∀ m, m < j → (supply m).2 ≠ none)
    (halive : j = 0 ∨ p.getMaxAttempts ≤ 0 ∨ (j : Int) < p.getMaxAttempts)
    (hfuel : j < fuel) :
    ∃ sleeps : List Int,
      Supply p done supply fuel t0 =
        some (((if j = 0 then t0 else (supply (j - 1)).1),
               some (RetryError.deadlineExceeded
                 (if j = 0 then t0 else (supply (j - 1)).1)
                 (if j = 0 then (none : Option E) else (supply (j - 1)).2))),
              sleeps, j) := by
  obtain ⟨sleeps, h⟩ := supplyGo_deadline p done supply j fuel 0 0 t0 none
    p.getInitialInterval (by simpa using hbefore) (by simpa using hsig)
    (by simpa using hfails) (by omega) hfuel
  simp only [Nat.zero_add] at h
  exact ⟨sleeps, h⟩

/-- Witness for C2: signal already fired at the first check, so the deadline
error carries the zero value 0 and error none, with zero invocations. -/
theorem claim2_witness :
    ∃ sleeps : List Int,
      Supply backOff100ms5 (fun _ => true)
          (fun _ => ((0 : Nat), (some 0 : Option Nat))) 1 0 =
        some ((0, some (RetryError.deadlineExceeded 0 none)), sleeps, 0) :=
  claim2_cancellation_checked_first backOff100ms5 (fun _ => true)
    (fun _ => (0, some 0)) 0 1 0 (fun m hm => absurd hm (Nat.not_lt_zero m)) rfl
    (fun m hm => absurd hm (Nat.not_lt_zero m)) (Or.inl rfl) (by omega)

/-- C6: for the built backoff policy with initialInterval 100ms, maxInterval
100ms, coefficient 2.0, every interval passed to the sleeper by Supply is at
most 100ms, for every operation, cancellation signal and fuel. -/
theorem claim6_sleeps_capped {T E : Type} (done : Nat → Bool)
    (supply : Nat → T × Option E) (fuel : Nat) (t0 : T)
    (out : T × Option (RetryError T E)) (sleeps : List Int) (calls : Nat)
    (h : Supply backOffCapped100ms done supply fuel t0 =
      some (out, sleeps, calls)) :
    ∀ s ∈ sleeps, s ≤ 100000000 := by
  have hb := supplyGo_sleeps_le backOffCapped100ms done supply (by decide)
    fuel t0 none backOffCapped100ms.getInitialInterval 0 0 out sleeps calls
    (by decide) h
  simpa using hb

/-- Witness for C6: a concrete run with three failed attempts sleeps
100ms each time, and that duration is within the 100ms cap. -/
theorem claim6_witness : (100000000 : Int) ≤ 100000000 :=
  claim6_sleeps_capped (fun _ => false)
    (fun _ => ((0 : Nat), (some 0 : Option Nat))) 4 0
    ((0 : Nat), some (RetryError.op (0 : Nat)))
    [100000000, 100000000, 100000000] 3 (by decide) 100000000 (by decide)

/-- C9: for every policy with bounded maxAttempts n at least 1 and an
always-failing operation with the cancellation signal never firing, Supply
calls the sleeper exactly n times: one sleep after every failed attempt,
including a final sleep after the n-th failed attempt before the
exhausted-attempts result is returned. -/
theorem claim9_sleep_after_every_failure {T E : Type} (p : policy)
    (hn : 1 ≤ p.getMaxAttempts) (vals : Nat → T) (e : E) (t0 : T) (fuel : Nat)
    (hfuel : p.getMaxAttempts.toNat < fuel) :
    ∃ sleeps : List Int, sleeps.length = p.getMaxAttempts.toNat ∧
      Supply p (fun _ => false) (fun k => (vals k, some e)) fuel t0 =
        some ((vals (p.getMaxAttempts.toNat - 1), some (RetryError.op e)),
              sleeps, p.getMaxAttempts.toNat) := by
  obtain ⟨sleeps, hlen, h⟩ := supplyGo_exhaust p (fun k => (vals k, some e))
    (fun k => by simp) (by omega) p.getMaxAttempts.toNat fuel 0 0 t0 none
    p.getInitialInterval (by omega) hfuel
  have hm0 : ¬(p.getMaxAttempts.toNat = 0) := by omega
  rw [if_neg hm0, if_neg hm0] at h
  simp only [Nat.zero_add] at h
  exact ⟨sleeps, hlen, h⟩

/-- Witness for C9: bounded maxAttempts 5, always-failing operation: the
sleeper is invoked exactly 5 times. -/
theorem claim9_witness :
    ∃ sleeps : List Int, sleeps.length = 5 ∧
      Supply backOff100ms5 (fun _ => false)
          (fun k => ((k : Nat), (some 7 : Option Nat))) 6 0 =
        some ((4, some (RetryError.op 7)), sleeps, 5) :=
  claim9_sleep_after_every_failure backOff100ms5 (by decide) (fun k => k) 7 0 6
    (by decide)

/-- C10: for every policy value whose maxAttempts getter returns 0 (reachable
through a zero-valued BackOffPolicy struct constructed without the builder),
Supply with an always-failing operation and a never-cancelled context never
terminates: the fuel-indexed loop returns none for every fuel, because the
counter increments only when maxAttempts is strictly positive. -/
theorem claim10_zero_maxAttempts_diverges {T E : Type} (p : policy)
    (hp : p.getMaxAttempts = 0) (supply : Nat → T × Option E)
    (hfail : ∀ k, (supply k).2 ≠ none) (fuel : Nat) (t0 : T) :
    Supply p (fun _ => false) supply fuel t0 = none :=
  supplyGo_maxAttempts_zero p supply hfail hp fuel 0 t0 none
    p.getInitialInterval

/-- Witness for C10: the zero-valued BackOffPolicy struct, always-failing
operation, fuel 5: still running. -/
theorem claim10_witness :
    Supply (BackOffPolicy.asPolicy ⟨0, 0, 0, 0⟩) (fun _ => false)
        (fun _ => ((0 : Nat), (some 0 : Option Nat))) 5 0 = none :=
  claim10_zero_maxAttempts_diverges (BackOffPolicy.asPolicy ⟨0, 0, 0, 0⟩) rfl
    (fun _ => (0, some 0)) (fun _ => Option.some_ne_none 0) 5 0

end Retry
